import Mathlib

/-!
Verification model of the `dashboard-next` repository.

The repository consists of three draft iterations of a single Next.js page,
`pages/dashboard.js`.  The definitions below are a shallow embedding of the
final draft (the second iteration stored in `src/pages/dashboard.js`), with
the first iteration's `escapeHtml` also embedded where a claim compares the
two drafts.  JavaScript values are modelled by the inductive `JSVal`;
React state is a record `DashState`; the asynchronous fetch lifecycle is
modelled by explicit events (`Ev`) applied by a pure step function.
-/

/-- The double-quote character, written via its code point. -/
def qchar : Char := Char.ofNat 34

/-- The apostrophe character, written via its code point. -/
def aposChar : Char := Char.ofNat 39

/-- The double-quote character as a one-character string. -/
def qs : String := String.singleton qchar

/-- The apostrophe as a one-character string. -/
def aposStr : String := String.singleton aposChar

/-- Opening curly brace as a one-character string. -/
def lbs : String := String.singleton (Char.ofNat 123)

/-- Closing curly brace as a one-character string. -/
def rbs : String := String.singleton (Char.ofNat 125)

/-- Model of a JavaScript value as it occurs in the dashboard page:
strings, numbers, booleans, `null`, `undefined`, arrays and plain
objects.  Integer numbers are `vnum n`; a JSON number with a fractional
part is kept as the exact decimal `vdec m e`, meaning `m * 10 ^ e` with
`e < 0` (the rounding of extreme literals to IEEE doubles, being floating
point, is outside the model and irrelevant to the moderate decimals the
page handles). -/
inductive JSVal : Type where
  | vstr (s : String)
  | vnum (n : Int)
  | vdec (m : Int) (e : Int)
  | vbool (b : Bool)
  | vnull
  | vundef
  | varr (xs : List JSVal)
  | vobj (fields : List (String × JSVal))
deriving Repr

namespace JSVal

/-- JavaScript truthiness: `""`, `0`, `false`, `null` and `undefined` are
falsy; every other value (including any array or object) is truthy. -/
def truthy : JSVal → Bool
  | vstr s => s ≠ ""
  | vnum n => n ≠ 0
  | vdec m _ => m ≠ 0
  | vbool b => b
  | vnull => false
  | vundef => false
  | varr _ => true
  | vobj _ => true

/-- `typeof v === 'object'`: true for arrays, plain objects and `null`. -/
def typeofObj : JSVal → Bool
  | varr _ => true
  | vobj _ => true
  | vnull => true
  | _ => false

/-- Length of `Object.keys(v)`: the number of own fields of an object, or
the number of elements of an array (whose keys are its indices). -/
def jsKeysLen : JSVal → Nat
  | vobj fields => fields.length
  | varr xs => xs.length
  | _ => 0

end JSVal

open JSVal

/-- Field lookup on an object field list (first binding wins, as in a
JavaScript object literal with distinct keys). -/
def lookupField (fields : List (String × JSVal)) (k : String) : Option JSVal :=
  (fields.find? (fun p => p.1 = k)).map (fun p => p.2)

/-- Property access `v[k]`: a present field's value, `undefined` otherwise
(string-keyed access on a non-object yields `undefined`). -/
def getField (v : JSVal) (k : String) : JSVal :=
  match v with
  | vobj fields => (lookupField fields k).getD vundef
  | _ => vundef

/-- JavaScript `a || b`: `a` when truthy, otherwise `b`. -/
def jsOr (a b : JSVal) : JSVal := if truthy a then a else b

/-- JavaScript `a || b` on strings: `a` when non-empty, otherwise `b`. -/
def jsOrStr (a b : String) : String := if a = "" then b else a

/-- `10 ^ n` on integers, structurally (so that it computes under the
kernel). -/
def pow10 : Nat → Int
  | 0 => 1
  | n + 1 => 10 * pow10 n

/-- The digit run with a decimal point inserted `k` places from the right
(plain decimal notation for `digits / 10 ^ k`). -/
def decPointed (digits : List Char) (k : Nat) : String :=
  if k < digits.length then
    String.mk (digits.take (digits.length - k)) ++ "."
      ++ String.mk (digits.drop (digits.length - k))
  else
    "0." ++ String.mk (List.replicate (k - digits.length) '0') ++ String.mk digits

/-- Display of the exact decimal `m * 10 ^ e`: the plain decimal notation
`String(...)` produces for the moderate-sized numbers the page handles
(the scientific notation JavaScript switches to at extreme magnitudes is
not modelled). -/
def decString (m : Int) (e : Int) : String :=
  if 0 ≤ e then toString (m * pow10 e.toNat)
  else (if m < 0 then "-" else "") ++ decPointed (toString m.natAbs).data (-e).toNat

mutual

/-- JavaScript `String(v)` coercion for the values of the model.  An array
stringifies to its elements joined by commas; a plain object to
`[object Object]`. -/
def toJSString : JSVal → String
  | .vstr s => s
  | .vnum n => toString n
  | .vdec m e => decString m e
  | .vbool true => "true"
  | .vbool false => "false"
  | .vnull => "null"
  | .vundef => "undefined"
  | .varr xs => toJSStringList xs
  | .vobj _ => "[object Object]"

/-- Comma-joined stringification of an array's elements. -/
def toJSStringList : List JSVal → String
  | [] => ""
  | [x] => toJSString x
  | x :: y :: rest => toJSString x ++ "," ++ toJSStringList (y :: rest)

end

/-- Replace every occurrence of the character `c` by the character list `r`
(the semantics of JavaScript `s.replace(/c/g, r)` for a single-character
pattern and a `$`-free replacement). -/
def escRepl (c : Char) (r : List Char) : List Char → List Char
  | [] => []
  | ch :: rest => (if ch = c then r else [ch]) ++ escRepl c r rest

/-- Replacing a character by itself is the identity. -/
theorem escRepl_self (c : Char) : ∀ l : List Char, escRepl c [c] l = l := by
  intro l
  induction l with
  | nil => rfl
  | cons ch rest ih =>
    by_cases h : ch = c
    · simp [escRepl, h, ih]
    · simp [escRepl, h, ih]

/-- The replacement chain of the first draft's `escapeHtml`
(`src/pages/dashboard.js` lines 25-30): in the stored source the
replacement strings are the bare characters themselves
(`.replace(/&/g, "&")` and so on), so each step replaces a character by
itself. -/
def escChain1 (l : List Char) : List Char :=
  escRepl aposChar [aposChar]
    (escRepl qchar [qchar]
      (escRepl '>' ['>']
        (escRepl '<' ['<']
          (escRepl '&' ['&'] l))))

/-- The replacement chain of the second draft's `escapeHtml`
(`src/pages/dashboard.js` lines 443-448): `&` to `&amp;`, `<` to `&lt;`,
`>` to `&gt;`, `"` to `&quot;`, `'` to `&#039;`, applied in that order. -/
def escChain2 (l : List Char) : List Char :=
  escRepl aposChar ("&#039;".data)
    (escRepl qchar ("&quot;".data)
      (escRepl '>' ("&gt;".data)
        (escRepl '<' ("&lt;".data)
          (escRepl '&' ("&amp;".data) l))))

/-- First draft's `escapeHtml`: `null`/`undefined` become `""`, other
non-strings are coerced with `String(...)`, then the draft's replacement
chain is applied. -/
def escapeHtml_v1 (x : JSVal) : String :=
  match x with
  | .vstr s => String.mk (escChain1 s.data)
  | .vnull => ""
  | .vundef => ""
  | v => String.mk (escChain1 (toJSString v).data)

/-- Second draft's `escapeHtml`: same structure, with HTML-entity
replacement strings. -/
def escapeHtml_v2 (x : JSVal) : String :=
  match x with
  | .vstr s => String.mk (escChain2 s.data)
  | .vnull => ""
  | .vundef => ""
  | v => String.mk (escChain2 (toJSString v).data)

/-- The first draft's chain is the identity. -/
theorem escChain1_id (l : List Char) : escChain1 l = l := by
  simp [escChain1, escRepl_self]

example : escapeHtml_v1 (vstr "<b>") = "<b>" := by rfl
example : escapeHtml_v2 (vstr "<") = "&lt;" := by rfl
example : (String.append "ab" "cd").data = "ab".data ++ "cd".data := rfl

/-- JSON whitespace. -/
def jsonWs (c : Char) : Bool :=
  c = ' ' || c = Char.ofNat 9 || c = Char.ofNat 10 || c = Char.ofNat 13

/-- Drop leading JSON whitespace. -/
def skipWs : List Char → List Char
  | [] => []
  | c :: rest => if jsonWs c then skipWs rest else c :: rest

/-- Decode a single-character JSON string escape (`\u` escapes carry hex
digits and are handled by the string parser itself). -/
def escDecode (c : Char) : Option Char :=
  if c = qchar then some qchar
  else if c = '\\' then some '\\'
  else if c = '/' then some '/'
  else if c = 'n' then some (Char.ofNat 10)
  else if c = 't' then some (Char.ofNat 9)
  else if c = 'r' then some (Char.ofNat 13)
  else if c = 'b' then some (Char.ofNat 8)
  else if c = 'f' then some (Char.ofNat 12)
  else none

/-- Value of one hexadecimal digit. -/
def hexVal (c : Char) : Option Nat :=
  if c.isDigit then some (c.toNat - 48)
  else if 'a' ≤ c && c ≤ 'f' then some (c.toNat - 87)
  else if 'A' ≤ c && c ≤ 'F' then some (c.toNat - 55)
  else none

/-- The four hex digits of a `\u` escape. -/
def parseHex4 : List Char → Option (Nat × List Char)
  | a :: b :: c :: d :: rest =>
    match hexVal a, hexVal b, hexVal c, hexVal d with
    | some x, some y, some z, some w =>
      some (((x * 16 + y) * 16 + z) * 16 + w, rest)
    | _, _, _, _ => none
  | _ => none

/-- Parse the body of a JSON string after the opening quote, returning the
decoded characters and the remainder after the closing quote.  As in
`JSON.parse`, an unescaped control character is rejected and a `\u`
escape is decoded, a surrogate pair as one code point; a lone surrogate
escape — which a JavaScript string can hold but a Lean `String` cannot
represent — is rejected. -/
def parseStrBody : Nat → List Char → Option (List Char × List Char)
  | 0, _ => none
  | _, [] => none
  | fuel + 1, c :: rest =>
    if c = qchar then some ([], rest)
    else if c = '\\' then
      match rest with
      | [] => none
      | e :: rest2 =>
        if e = 'u' then
          match parseHex4 rest2 with
          | none => none
          | some (n, rest3) =>
            if 55296 ≤ n && n ≤ 56319 then
              match rest3 with
              | c2 :: e2 :: rest4 =>
                if c2 = '\\' && e2 = 'u' then
                  match parseHex4 rest4 with
                  | none => none
                  | some (n2, rest5) =>
                    if 56320 ≤ n2 && n2 ≤ 57343 then
                      match parseStrBody fuel rest5 with
                      | none => none
                      | some (cs, rem) =>
                        some (Char.ofNat
                          (65536 + (n - 55296) * 1024 + (n2 - 56320)) :: cs, rem)
                    else none
                else none
              | _ => none
            else if 56320 ≤ n && n ≤ 57343 then none
            else
              match parseStrBody fuel rest3 with
              | none => none
              | some (cs, rem) => some (Char.ofNat n :: cs, rem)
        else
          match escDecode e with
          | none => none
          | some d =>
            match parseStrBody fuel rest2 with
            | none => none
            | some (cs, rem) => some (d :: cs, rem)
    else if c.toNat < 32 then none
    else
      match parseStrBody fuel rest with
      | none => none
      | some (cs, rem) => some (c :: cs, rem)

/-- Take a maximal run of decimal digits. -/
def takeDigits : List Char → List Char × List Char
  | [] => ([], [])
  | c :: rest =>
    if c.isDigit then
      let p := takeDigits rest
      (c :: p.1, p.2)
    else ([], c :: rest)

/-- Numeric value of a digit run. -/
def digitsVal (l : List Char) : Nat :=
  l.foldl (fun acc c => acc * 10 + (c.toNat - 48)) 0

/-- Drop leading `0` digits, counting them (used on reversed digit runs
to strip trailing zeros). -/
def dropZeros : List Char → List Char × Nat
  | [] => ([], 0)
  | c :: rest =>
    if c = '0' then
      let p := dropZeros rest
      (p.1, p.2 + 1)
    else (c :: rest, 0)

/-- The value of a parsed JSON number from its sign, integer digits,
fraction digits and exponent: trailing zeros move into the exponent, an
integer value becomes `vnum`, and a fractional value becomes the exact
decimal `vdec m e` (meaning `m * 10 ^ e`). -/
def mkJsonNum (neg : Bool) (intDs fracDs : List Char) (ex : Int) : JSVal :=
  let p := dropZeros (intDs ++ fracDs).reverse
  match p.1 with
  | [] => JSVal.vnum 0
  | ds =>
    let m : Int := (digitsVal ds.reverse : Int)
    let m := if neg then -m else m
    let e : Int := ex - (fracDs.length : Int) + (p.2 : Int)
    if 0 ≤ e then JSVal.vnum (m * pow10 e.toNat) else JSVal.vdec m e

/-- The optional fraction part: a `.` must be followed by at least one
digit; no fraction is an empty digit run. -/
def parseFrac : List Char → Option (List Char × List Char)
  | '.' :: r =>
    match takeDigits r with
    | ([], _) => none
    | (ds, rem) => some (ds, rem)
  | l => some ([], l)

/-- The optional exponent part: `e`/`E`, an optional sign, and at least
one digit; no exponent is `0`. -/
def parseExp : List Char → Option (Int × List Char)
  | [] => some (0, [])
  | c :: r =>
    if c = 'e' || c = 'E' then
      let p : Int × List Char := match r with
        | '+' :: rr => (1, rr)
        | '-' :: rr => (-1, rr)
        | _ => (1, r)
      match takeDigits p.2 with
      | ([], _) => none
      | (ds, rem) => some (p.1 * (digitsVal ds : Int), rem)
    else some (0, c :: r)

/-- Parse a JSON number with the full `JSON.parse` grammar: an optional
minus, an integer part without leading zeros, an optional fraction and an
optional exponent. -/
def parseNumber (l : List Char) : Option (JSVal × List Char) :=
  let p : Bool × List Char := match l with
    | '-' :: rest => (true, rest)
    | _ => (false, l)
  match takeDigits p.2 with
  | ([], _) => none
  | (intDs, r1) =>
    if 1 < intDs.length ∧ intDs.headD ' ' = '0' then none
    else
      match parseFrac r1 with
      | none => none
      | some (fracDs, r2) =>
        match parseExp r2 with
        | none => none
        | some (ex, r3) => some (mkJsonNum p.1 intDs fracDs ex, r3)

/-- Set a key in an object field list the way JavaScript object
construction does: an existing key keeps its position and takes the new
value, a new key is appended. -/
def objInsert (fs : List (String × JSVal)) (k : String) (v : JSVal) :
    List (String × JSVal) :=
  match fs with
  | [] => [(k, v)]
  | (k2, v2) :: rest =>
    if k2 = k then (k2, v) :: rest else (k2, v2) :: objInsert rest k v

/-- Collapse parsed object members as `JSON.parse` does: with duplicate
keys the last value wins, at the key's first position. -/
def dedupFields (fs : List (String × JSVal)) : List (String × JSVal) :=
  fs.foldl (fun acc q => objInsert acc q.1 q.2) []

/-- Drop an expected literal from the front of the input. -/
def dropLit : List Char → List Char → Option (List Char)
  | [], l => some l
  | _ :: _, [] => none
  | p :: ps, c :: cs => if p = c then dropLit ps cs else none

mutual

/-- Parser for a JSON value, following the `JSON.parse` grammar
(fuel-indexed to ensure termination).  Numbers are kept as exact
decimals; their rounding to IEEE doubles is floating point and outside
the model. -/
def parseVal : Nat → List Char → Option (JSVal × List Char)
  | 0, _ => none
  | fuel + 1, input =>
    match skipWs input with
    | [] => none
    | c :: rest =>
      if c = qchar then
        match parseStrBody (fuel + 1) rest with
        | none => none
        | some (cs, rem) => some (JSVal.vstr (String.mk cs), rem)
      else if c = '[' then
        match skipWs rest with
        | ']' :: rem => some (JSVal.varr [], rem)
        | other =>
          match parseElems fuel other with
          | none => none
          | some (xs, rem) => some (JSVal.varr xs, rem)
      else if c = Char.ofNat 123 then
        match skipWs rest with
        | d :: rem =>
          if d = Char.ofNat 125 then some (JSVal.vobj [], rem)
          else
            match parseMembers fuel (d :: rem) with
            | none => none
            | some (fs, rem2) => some (JSVal.vobj (dedupFields fs), rem2)
        | [] => none
      else if c = 't' then
        (dropLit "rue".data rest).map (fun rem => (JSVal.vbool true, rem))
      else if c = 'f' then
        (dropLit "alse".data rest).map (fun rem => (JSVal.vbool false, rem))
      else if c = 'n' then
        (dropLit "ull".data rest).map (fun rem => (JSVal.vnull, rem))
      else if c = '-' || c.isDigit then parseNumber (c :: rest)
      else none

/-- Parse the elements of a non-empty JSON array, consuming the closing
bracket. -/
def parseElems : Nat → List Char → Option (List JSVal × List Char)
  | 0, _ => none
  | fuel + 1, input =>
    match parseVal fuel input with
    | none => none
    | some (v, rem) =>
      match skipWs rem with
      | ',' :: rem2 =>
        match parseElems fuel rem2 with
        | none => none
        | some (vs, rem3) => some (v :: vs, rem3)
      | ']' :: rem2 => some ([v], rem2)
      | _ => none

/-- Parse the members of a non-empty JSON object, consuming the closing
brace. -/
def parseMembers : Nat → List Char → Option (List (String × JSVal) × List Char)
  | 0, _ => none
  | fuel + 1, input =>
    match skipWs input with
    | [] => none
    | c :: rest =>
      if c = qchar then
        match parseStrBody (fuel + 1) rest with
        | none => none
        | some (key, rem) =>
          match skipWs rem with
          | ':' :: rem2 =>
            match parseVal fuel rem2 with
            | none => none
            | some (v, rem3) =>
              match skipWs rem3 with
              | ',' :: rem4 =>
                match parseMembers fuel rem4 with
                | none => none
                | some (fs, rem5) => some ((String.mk key, v) :: fs, rem5)
              | d :: rem4 =>
                if d = Char.ofNat 125 then some ([(String.mk key, v)], rem4)
                else none
              | [] => none
          | _ => none
      else none

end

/-- Model of `JSON.parse`: parse one value and require only whitespace to
remain; any other outcome is the thrown `SyntaxError`, modelled as `none`. -/
def jsonParse (s : String) : Option JSVal :=
  match parseVal (2 * s.data.length + 2) s.data with
  | none => none
  | some (v, rem) => if skipWs rem = [] then some v else none

example : jsonParse "[1, 2, 3]" = some (varr [vnum 1, vnum 2, vnum 3]) := by rfl
example : jsonParse "[01]" = none := by rfl
example : jsonParse "[-0]" = some (varr [vnum 0]) := by rfl
example : jsonParse "[1.5]" = some (varr [vdec 15 (-1)]) := by rfl
example : jsonParse "[1.5e1]" = some (varr [vnum 15]) := by rfl
example : jsonParse "[2e3]" = some (varr [vnum 2000]) := by rfl
example : jsonParse "[1e-2]" = some (varr [vdec 1 (-2)]) := by rfl
example : jsonParse "[1.]" = none := by rfl
example : jsonParse "[1e]" = none := by rfl
example : jsonParse "[.5]" = none := by rfl
example : toJSString (vdec 15 (-1)) = "1.5" := by rfl
example : toJSString (vdec 1 (-2)) = "0.01" := by rfl
example : toJSString (vdec (-123) (-1)) = "-12.3" := by rfl
example : jsonParse ("[" ++ qs ++ "\\u0041" ++ qs ++ "]") = some (varr [vstr "A"]) := by rfl
example : jsonParse ("[" ++ qs ++ "\\uD83D\\uDE00" ++ qs ++ "]")
    = some (varr [vstr (String.singleton (Char.ofNat 128512))]) := by rfl
example : jsonParse ("[" ++ qs ++ "\\uD83D" ++ qs ++ "]") = none := by rfl
example : jsonParse ("[" ++ qs ++ "a\tb" ++ qs ++ "]") = none := by rfl
example : jsonParse ("[" ++ qs ++ "a\\tb" ++ qs ++ "]")
    = some (varr [vstr ("a" ++ String.singleton (Char.ofNat 9) ++ "b")]) := by rfl
example :
    jsonParse (lbs ++ qs ++ "a" ++ qs ++ ":1," ++ qs ++ "b" ++ qs ++ ":2,"
        ++ qs ++ "a" ++ qs ++ ":3" ++ rbs)
      = some (vobj [("a", vnum 3), ("b", vnum 2)]) := by rfl
example : jsonParse "not json" = none := by rfl
example : jsonParse "" = none := by rfl
example :
    jsonParse ("[" ++ lbs ++ qs ++ "a" ++ qs ++ ":" ++ qs ++ "b" ++ qs ++ rbs ++ "]")
      = some (varr [vobj [("a", vstr "b")]]) := by rfl
example : jsonParse "[]" = some (varr []) := by rfl
example : jsonParse "[1,]" = none := by rfl

/-- The configuration payload delivered by the CMS config endpoint
(`ajax_url`, `nonce`, `useAjaxProxy`, optional `bookingLink`). -/
structure WpConfig : Type where
  ajax_url : String
  nonce : String
  useAjaxProxy : Bool
  bookingLink : Option String
deriving Repr

/-- The React state of `DashboardPage` (second draft), together with the
bookkeeping the shallow embedding needs: the refs (`lastFetchedId`,
`configFetched`), the router query value `visitorIdFromUrl`, the
identifiers of record fetches currently in flight, and counters of issued
record-fetch and config network requests. -/
structure DashState : Type where
  wpConfig : Option WpConfig
  visitorIdInput : String
  currentNocoRecord : Option JSVal
  isLoading : Bool
  error : Option String
  showNoDataMessage : Bool
  currentStatusMessage : String
  lastFetchedId : Option String
  configFetched : Bool
  configInFlight : Bool
  visitorIdFromUrl : Option String
  inFlight : List String
  networkCalls : Nat
  configCalls : Nat
deriving Repr

/-- The initial state on mount, per the `useState` initialisers. -/
def s0 : DashState where
  wpConfig := none
  visitorIdInput := ""
  currentNocoRecord := none
  isLoading := false
  error := none
  showNoDataMessage := true
  currentStatusMessage := "Enter a Visitor ID to begin."
  lastFetchedId := none
  configFetched := false
  configInFlight := false
  visitorIdFromUrl := none
  inFlight := []
  networkCalls := 0
  configCalls := 0

/-- Truthiness of the optional strings held in refs and the router query
(`null`/`undefined` and the empty string are falsy). -/
def optTruthy : Option String → Bool
  | none => false
  | some s => s ≠ ""

/-- Truthiness of the `error` state variable. -/
def errTruthy (e : Option String) : Bool := optTruthy e

/-- Truthiness of the `currentNocoRecord` state variable. -/
def recTruthy : Option JSVal → Bool
  | none => false
  | some v => truthy v

/-- The status message set while a fetch is being issued. -/
def fetchingMsg (id : String) : String :=
  "Fetching personalized insights for ID: " ++ (id ++ "...")

/-- The message stored in `error` when a successful response carries an
empty or absent record. -/
def noDataMsg (id : String) : String :=
  "No data found for Visitor ID: " ++ (id ++ ". Please verify the ID.")

/-- The generic transport-failure message of `fetchVisitorDataViaProxy`. -/
def genericFetchErrMsg : String := "An error occurred while fetching data."

/-- The fallback applied to a caught error with an empty message. -/
def unexpectedErrMsg : String := "An unexpected error occurred while loading data."

/-- The status message shown for a freshly loaded record. -/
def showingMsg (v : JSVal) : String :=
  "Showing personalized data for: "
    ++ toJSString (jsOr (getField v "first_name") (vstr "Valued Lead"))
    ++ " from "
    ++ toJSString (jsOr (jsOr (getField v "organization/name") (getField v "company_short"))
        (vstr "Your Company"))

/-- The check a successful response's payload must pass to be stored as
the current record: `record && typeof record === 'object' &&
Object.keys(record).length > 0`. -/
def loadedShape (v : JSVal) : Bool :=
  truthy v && typeofObj v && decide (0 < jsKeysLen v)

/-- State reset performed by `fetchAndRenderDashboard` when called without
an identifier. -/
def resetNoId (s : DashState) : DashState :=
  { s with currentNocoRecord := none, error := none, showNoDataMessage := true,
           currentStatusMessage := "Please enter a Visitor ID.",
           isLoading := false, lastFetchedId := none }

/-- The `catch`/`finally` tail of `fetchAndRenderDashboard` for an error
raised before or while issuing the request. -/
def failNow (m : String) (s : DashState) : DashState :=
  { s with error := some m, currentNocoRecord := none,
           showNoDataMessage := true, isLoading := false }

/-- The synchronous prefix of `fetchAndRenderDashboard(id)`: the reset when
`id` is falsy; otherwise the loading flags are set, the configuration is
validated (`useAjaxProxy`, then `ajax_url`/`nonce`), and on success the
proxy request is issued (the identifier joins `inFlight` and the
network-call counter increments).  The response is applied later by a
resolve event. -/
def startFetch (id : String) (s : DashState) : DashState :=
  if id = "" then resetNoId s
  else
    let s1 := { s with isLoading := true, error := none, showNoDataMessage := false,
                       currentStatusMessage := fetchingMsg id }
    match s.wpConfig with
    | none => failNow "WordPress configuration error. Cannot fetch data." s1
    | some cfg =>
      if cfg.useAjaxProxy = false then
        failNow "WordPress configuration error. Cannot fetch data." s1
      else if cfg.ajax_url = "" || cfg.nonce = "" then
        failNow "WordPress configuration (ajax_url or nonce) is missing." s1
      else
        { s1 with inFlight := s1.inFlight ++ [id],
                  networkCalls := s1.networkCalls + 1 }

/-- The continuation of `fetchAndRenderDashboard` for a successful proxy
response carrying payload `v`: a payload of loaded shape becomes the
current record; any other payload takes the `No data found` branch, which
stores its message in the same `error` state variable used for failures.
The `finally` clause clears `isLoading`. -/
def resolveOkApply (id : String) (v : JSVal) (s : DashState) : DashState :=
  if s.inFlight.contains id then
    let s' := { s with inFlight := s.inFlight.erase id }
    if loadedShape v then
      { s' with currentNocoRecord := some v,
                currentStatusMessage := showingMsg v,
                showNoDataMessage := false, isLoading := false }
    else
      { s' with error := some (noDataMsg id), currentNocoRecord := none,
                showNoDataMessage := true, isLoading := false }
  else s

/-- The continuation of `fetchAndRenderDashboard` for a failed fetch with
message `m` (`setError(err.message || fallback)`). -/
def resolveFailApply (id : String) (m : String) (s : DashState) : DashState :=
  if s.inFlight.contains id then
    { s with inFlight := s.inFlight.erase id,
             error := some (jsOrStr m unexpectedErrMsg),
             currentNocoRecord := none, showNoDataMessage := true,
             isLoading := false }
  else s

/-- The reset branch of the data-fetch trigger effect when no identifier
is present in the URL. -/
def resetToBegin (s : DashState) : DashState :=
  { s with currentNocoRecord := none, error := none, showNoDataMessage := true,
           currentStatusMessage := "Enter a Visitor ID to begin.",
           visitorIdInput := "", lastFetchedId := none }

/-- The data-fetch trigger effect (second draft, lines 568-582): with a
loaded configuration and a truthy URL identifier it syncs the input field
and, when not loading and the identifier differs from the last fetched
one, clears the record, stamps `lastFetchedId` and starts the fetch; with
no URL identifier it resets the page. -/
def dataEffectOp (s : DashState) : DashState :=
  match s.wpConfig with
  | none => s
  | some _ =>
    match s.visitorIdFromUrl with
    | some id =>
      if id = "" then resetToBegin s
      else
        let s1 := { s with visitorIdInput := id }
        if s.isLoading = false && (some id ≠ s.lastFetchedId : Bool) then
          startFetch id
            { s1 with currentNocoRecord := none, error := none,
                      lastFetchedId := some id }
        else s1
    | none => resetToBegin s

/-- Model of JavaScript `s.trim()`: drop whitespace from both ends
(structurally, so that it computes under the kernel). -/
def jsTrim (s : String) : String :=
  String.mk (((s.data.dropWhile Char.isWhitespace).reverse.dropWhile
    Char.isWhitespace).reverse)

/-- `handleFetchButtonClick` (second draft, lines 584-599): a non-empty
trimmed input with a changed identifier, a truthy error or no record
resets `lastFetchedId` and pushes the identifier into the URL; the same
identifier with data and no error re-initiates the fetch directly when not
loading; an empty input resets and clears the URL parameter. -/
def clickOp (s : DashState) : DashState :=
  if jsTrim s.visitorIdInput = "" then
    { s with error := some "Please enter a Visitor ID.",
             currentStatusMessage := "Please enter a Visitor ID.",
             showNoDataMessage := true, currentNocoRecord := none,
             lastFetchedId := none, visitorIdFromUrl := none }
  else if (some (jsTrim s.visitorIdInput) ≠ s.lastFetchedId : Bool)
      || errTruthy s.error || !recTruthy s.currentNocoRecord then
    { s with lastFetchedId := none,
             visitorIdFromUrl := some (jsTrim s.visitorIdInput) }
  else if s.isLoading = false then
    startFetch (jsTrim s.visitorIdInput) { s with lastFetchedId := none }
  else s

/-- The config fetch effect body (lines 553-566), parameterised by the
build-time `WP_API_URL`: when the guard ref is clear and the URL is
truthy, the ref is set and one config request is issued; when the URL is
falsy, the error is set with no request. -/
def configRunOp (apiUrl : Option String) (s : DashState) : DashState :=
  if s.configFetched = false && optTruthy apiUrl then
    { s with configFetched := true, configInFlight := true,
             configCalls := s.configCalls + 1 }
  else if optTruthy apiUrl = false then
    { s with error := some "Dashboard Error: API URL configuration is missing." }
  else s

/-- A successful config response storing the payload. -/
def configOkOp (cfg : WpConfig) (s : DashState) : DashState :=
  if s.configInFlight then
    { s with wpConfig := some cfg, configInFlight := false }
  else s

/-- A failed config request: the caught error sets the page error. -/
def configFailOp (m : String) (s : DashState) : DashState :=
  if s.configInFlight then
    { s with error := some ("Dashboard Error: Could not load configuration from server. " ++ m),
             configInFlight := false }
  else s

/-- The events that drive the page: effect executions, navigation, input
edits, the submit button, and network resolutions. -/
inductive Ev : Type where
  | configRun
  | configOk (cfg : WpConfig)
  | configFail (m : String)
  | urlSet (u : Option String)
  | dataEffect
  | inputSet (t : String)
  | click
  | resolveOk (id : String) (v : JSVal)
  | resolveFail (id : String) (m : String)

/-- Apply one event to the state. -/
def applyEv (apiUrl : Option String) (e : Ev) (s : DashState) : DashState :=
  match e with
  | .configRun => configRunOp apiUrl s
  | .configOk cfg => configOkOp cfg s
  | .configFail m => configFailOp m s
  | .urlSet u => { s with visitorIdFromUrl := u }
  | .dataEffect => dataEffectOp s
  | .inputSet t => { s with visitorIdInput := t }
  | .click => clickOp s
  | .resolveOk id v => resolveOkApply id v s
  | .resolveFail id m => resolveFailApply id m s

/-- Run a list of events from a state. -/
def runEvents (apiUrl : Option String) (evs : List Ev) (s : DashState) : DashState :=
  evs.foldl (fun st e => applyEv apiUrl e st) s

/-- A state is reachable when a sequence of events leads to it from the
mount state. -/
def Reachable (apiUrl : Option String) (s : DashState) : Prop :=
  Relation.ReflTransGen (fun a b => ∃ e, b = applyEv apiUrl e a) s0 s

/-- `hasData` (line 603): a truthy object record with at least one key,
while not loading and with no truthy error. -/
def hasData (s : DashState) : Bool :=
  match s.currentNocoRecord with
  | some v => truthy v && typeofObj v && decide (0 < jsKeysLen v)
      && !s.isLoading && !errTruthy s.error
  | none => false

/-- `displayDashboardContent` (line 670): the gate for all main content
sections, equal to `hasData`. -/
def displayDashboardContent (s : DashState) : Bool := hasData s

/-- Convenience accessor for a field of the current record. -/
def recField (s : DashState) (k : String) : JSVal :=
  match s.currentNocoRecord with
  | some v => getField v k
  | none => vundef

/-- `companyNameFromAPI` (line 605): with data, the record's
`organization/name` or else `company_short`; otherwise `null`. -/
def companyNameFromAPI (s : DashState) : JSVal :=
  if hasData s then jsOr (recField s "organization/name") (recField s "company_short")
  else vnull

/-- `companyName` (line 606): the API name when truthy, otherwise the
literal `Company` with data and `Your Company` without. -/
def companyName (s : DashState) : JSVal :=
  jsOr (companyNameFromAPI s)
    (vstr (if hasData s then "Company" else "Your Company"))

/-- The fixed default KPI set of the second draft (lines 651-656). -/
def defaultKpis : List JSVal :=
  [ vobj [("label", vstr "Strategic Alignment"), ("value", vstr "High"),
          ("target", vstr ("With MakerToo" ++ aposStr ++ "s Open-Source Focus")),
          ("icon", vstr "dashicons-admin-links"), ("trend", vstr "stable")],
    vobj [("label", vstr "Innovation Potential"), ("value", vstr "Significant"),
          ("target", vstr "Via Custom AI/Automation"),
          ("icon", vstr "dashicons-lightbulb"), ("trend", vstr "up")],
    vobj [("label", vstr "Data Control"), ("value", vstr "Total"),
          ("target", vstr "Through Private Infrastructure"),
          ("icon", vstr "dashicons-lock"), ("trend", vstr "up")],
    vobj [("label", vstr "Future Scalability"), ("value", vstr "Assured"),
          ("target", vstr "With Flexible Tech Stacks"),
          ("icon", vstr "dashicons-backup"), ("trend", vstr "up")] ]

/-- `kpisToShow` (lines 651-662): the defaults, replaced by the parsed
`kpi_data` field when it is truthy, parses as JSON and yields a non-empty
array; a parse failure (the thrown `SyntaxError`) is caught and keeps the
defaults. -/
def kpisToShow (s : DashState) : List JSVal :=
  if hasData s && truthy (recField s "kpi_data") then
    match jsonParse (toJSString (recField s "kpi_data")) with
    | some (JSVal.varr xs) => if xs.isEmpty then defaultKpis else xs
    | _ => defaultKpis
  else defaultKpis

/-- The texts of one rendered KPI card (lines 756-763): icon class, label,
value and target, each passed through the second draft's `escapeHtml`. -/
structure KpiCard : Type where
  icon : String
  label : String
  value : String
  target : String
deriving Repr

/-- Projection of one KPI entry to its rendered card texts. -/
def kpiCardOf (k : JSVal) : KpiCard where
  icon := escapeHtml_v2 (jsOr (getField k "icon") (vstr "dashicons-star-filled"))
  label := escapeHtml_v2 (getField k "label")
  value := escapeHtml_v2 (getField k "value")
  target := escapeHtml_v2 (getField k "target")

/-- The KPI cards rendered inside the KPI section: one card per entry of
`kpisToShow`. -/
def renderKpiCards (s : DashState) : List KpiCard :=
  (kpisToShow s).map kpiCardOf

/-- True when the input begins with `<`, the shape under which the
CommonMark HTML-block rule applies to the research-report inputs of
interest. -/
def htmlLead (t : String) : Bool :=
  match t.data with
  | c :: _ => c = '<'
  | [] => false

/-- Model of the external markdown renderer `marked.parse` (a library
dependency, not repository code): per the CommonMark HTML-block rule an
input that begins with a raw HTML tag is passed through unchanged, and
ordinary text is wrapped in a paragraph.  The renderer performs no
sanitization, and the repository applies none around it. -/
def markedParse (t : String) : String :=
  if htmlLead t then t else "<p>" ++ t ++ "</p>"

/-- `fullDeepResearchHtml` (lines 664-668): the placeholder paragraph, or
`marked.parse` applied to the truthy `deep_reaserach` field (the CSV typo
is the field name used by the source). -/
def fullDeepResearchHtml (s : DashState) : String :=
  if hasData s && truthy (recField s "deep_reaserach") then
    markedParse (toJSString (recField s "deep_reaserach"))
  else
    "<p>Your comprehensive research report will be accessible here, providing in-depth analysis and strategic recommendations.</p>"

/-- Whether `pat` occurs at the start of `text`. -/
def leadsWith : List Char → List Char → Bool
  | [], _ => true
  | _ :: _, [] => false
  | a :: as, b :: bs => a = b && leadsWith as bs

/-- Whether `pat` occurs anywhere inside `text`. -/
def containsSub (pat : List Char) : List Char → Bool
  | [] => leadsWith pat []
  | c :: cs => leadsWith pat (c :: cs) || containsSub pat cs

example : containsSub "scr".data "a script".data = true := by rfl
example : containsSub "scr".data "a spt".data = false := by rfl

/-- `String.append` acts as list append on the underlying characters. -/
theorem append_data (a b : String) : (a ++ b).data = a.data ++ b.data := rfl

/-- A string with a non-empty literal prefix is non-empty. -/
theorem append_ne_empty_left (a b : String) (ha : a.data ≠ []) : a ++ b ≠ "" := by
  intro h
  have h2 : (a ++ b).data = "".data := congrArg String.data h
  rw [append_data] at h2
  simp only [List.append_eq_nil] at h2
  exact ha h2.1

/-- The no-data message is never empty. -/
theorem noDataMsg_ne_empty (id : String) : noDataMsg id ≠ "" :=
  append_ne_empty_left _ _ (by decide)

/-- The no-data message differs from the generic transport-failure
message. -/
theorem noDataMsg_ne_generic (id : String) : noDataMsg id ≠ genericFetchErrMsg := by
  intro h
  have h2 : (noDataMsg id).data = genericFetchErrMsg.data := congrArg String.data h
  rw [noDataMsg, append_data] at h2
  rw [show genericFetchErrMsg.data = 'A' :: "n error occurred while fetching data.".data from rfl] at h2
  rw [show ("No data found for Visitor ID: " : String).data
      = 'N' :: "o data found for Visitor ID: ".data from rfl] at h2
  simp at h2

/-- `a || b` on strings is non-empty when `b` is. -/
theorem jsOrStr_ne_empty (m b : String) (hb : b ≠ "") : jsOrStr m b ≠ "" := by
  unfold jsOrStr
  split
  · exact hb
  · next h => exact h

/-- C4: for a fetched non-empty record with neither an `organization/name`
field nor a `company_short` field, the displayed company name is exactly
the fallback literal `Company` (the literal the implementation designates
when data is present), and is neither `undefined`, `null`, nor a value
whose string form is the text `undefined`. -/
theorem C4_company_name_fallback (s : DashState) (fields : List (String × JSVal))
    (hrec : s.currentNocoRecord = some (vobj fields))
    (hdata : hasData s = true)
    (h1 : lookupField fields "organization/name" = none)
    (h2 : lookupField fields "company_short" = none) :
    companyName s = vstr "Company" ∧ companyName s ≠ vundef ∧
    companyName s ≠ vnull ∧ toJSString (companyName s) ≠ "undefined" := by
  have hc : companyName s = vstr "Company" := by
    simp [companyName, companyNameFromAPI, hdata, recField, hrec, getField, h1, h2,
      jsOr, truthy]
  refine ⟨hc, ?_, ?_, ?_⟩ <;> rw [hc]
  · intro h; cases h
  · intro h; cases h
  · intro h
    have : ("Company" : String) = "undefined" := h
    simp at this

/-- Concrete record exercising the C4 fallback. -/
def c4state : DashState :=
  { s0 with currentNocoRecord := some (vobj [("first_name", vstr "Ada")]) }

/-- Witness for C4 at a concrete one-field record. -/
theorem C4_company_name_fallback_witness :
    companyName c4state = vstr "Company" ∧ companyName c4state ≠ vundef ∧
    companyName c4state ≠ vnull ∧ toJSString (companyName c4state) ≠ "undefined" :=
  C4_company_name_fallback c4state [("first_name", vstr "Ada")] rfl (by rfl)
    (by rfl) (by rfl)

/-- C6: with no configured base URL the config effect sets the failure
message and issues no network request (the config-request counter and the
in-flight flag are untouched). -/
theorem C6_missing_base_url (apiUrl : Option String) (s : DashState)
    (h : optTruthy apiUrl = false) :
    (configRunOp apiUrl s).configCalls = s.configCalls ∧
    (configRunOp apiUrl s).configInFlight = s.configInFlight ∧
    (configRunOp apiUrl s).error
      = some "Dashboard Error: API URL configuration is missing." := by
  simp [configRunOp, h]

/-- Witness for C6 with an absent base URL at the mount state. -/
theorem C6_missing_base_url_witness :
    (configRunOp none s0).configCalls = s0.configCalls ∧
    (configRunOp none s0).configInFlight = s0.configInFlight ∧
    (configRunOp none s0).error
      = some "Dashboard Error: API URL configuration is missing." :=
  C6_missing_base_url none s0 (by rfl)

/-- Budget that bounds how many config requests can still be issued: the
count so far plus one when the guard ref is still clear. -/
def cfgBudget (s : DashState) : Nat :=
  s.configCalls + (if s.configFetched then 0 else 1)

/-- No event increases the config budget: the only step that issues a
config request also sets the guard ref. -/
theorem cfgBudget_step (apiUrl : Option String) (e : Ev) (s : DashState) :
    cfgBudget (applyEv apiUrl e s) ≤ cfgBudget s := by
  cases e <;>
    simp only [applyEv, configRunOp, configOkOp, configFailOp, dataEffectOp, clickOp,
      resolveOkApply, resolveFailApply, startFetch, resetNoId, failNow, resetToBegin,
      cfgBudget] <;>
    (repeat' split) <;>
    simp_all

/-- The config budget never increases along a run. -/
theorem cfgBudget_run (apiUrl : Option String) (evs : List Ev) :
    ∀ s : DashState, cfgBudget (runEvents apiUrl evs s) ≤ cfgBudget s := by
  induction evs with
  | nil => intro s; exact le_refl _
  | cons e rest ih =>
    intro s
    exact le_trans (ih (applyEv apiUrl e s)) (cfgBudget_step apiUrl e s)

/-- C7: the configuration loader is invoked at most once per page
lifetime: under every event sequence from the mount state, in particular
every sequence of effect re-executions, at most one config request is ever
issued (the `configFetched` guard is set together with the single issue
and never cleared). -/
theorem C7_config_at_most_once (apiUrl : Option String) (evs : List Ev) :
    (runEvents apiUrl evs s0).configCalls ≤ 1 := by
  have h := cfgBudget_run apiUrl evs s0
  have h0 : cfgBudget s0 = 1 := by simp [cfgBudget, s0]
  rw [h0] at h
  exact le_trans (Nat.le_add_right _ _) h

/-- Replacing a character that does not occur leaves the list unchanged. -/
theorem escRepl_absent (c : Char) (r : List Char) :
    ∀ l : List Char, (∀ ch ∈ l, ch ≠ c) → escRepl c r l = l := by
  intro l h
  induction l with
  | nil => rfl
  | cons ch rest ih =>
    have hch : ch ≠ c := h ch (List.mem_cons_self ch rest)
    simp [escRepl, hch, ih (fun x hx => h x (List.mem_cons_of_mem ch hx))]

/-- Whether a character list avoids all five HTML-special characters. -/
def noSpecial (l : List Char) : Bool :=
  l.all (fun c => !(c = '&' || c = '<' || c = '>' || c = qchar || c = aposChar))

/-- On special-free input the second draft's chain is the identity. -/
theorem escChain2_id_of_noSpecial (l : List Char) (h : noSpecial l = true) :
    escChain2 l = l := by
  unfold noSpecial at h
  simp only [List.all_eq_true, Bool.not_eq_true', Bool.or_eq_false_iff,
    decide_eq_false_iff_not] at h
  unfold escChain2
  rw [escRepl_absent '&' _ l (fun ch hch => (h ch hch).1.1.1.1),
      escRepl_absent '<' _ l (fun ch hch => (h ch hch).1.1.1.2),
      escRepl_absent '>' _ l (fun ch hch => (h ch hch).1.1.2),
      escRepl_absent qchar _ l (fun ch hch => (h ch hch).1.2),
      escRepl_absent aposChar _ l (fun ch hch => (h ch hch).2)]

/-- The display coercion both drafts share before their replacement chains:
`null`/`undefined` become the empty string, anything else is `String(v)`. -/
def jsCoerceDisplay (v : JSVal) : String :=
  match v with
  | .vnull => ""
  | .vundef => ""
  | v => toJSString v

/-- C9 counterexample: the two draft iterations of `escapeHtml` disagree
already at the one-character string `<` — the first draft (whose stored
replacement strings are the bare characters) returns it unchanged while
the second draft produces the entity `&lt;`. -/
theorem C9_counterexample :
    escapeHtml_v1 (vstr "<") = "<" ∧ escapeHtml_v2 (vstr "<") = "&lt;" ∧
    escapeHtml_v1 (vstr "<") ≠ escapeHtml_v2 (vstr "<") := by
  refine ⟨rfl, rfl, ?_⟩
  decide

/-- The first draft, on any value, returns the display coercion: its chain
is the identity. -/
theorem escapeHtml_v1_coerce (v : JSVal) : escapeHtml_v1 v = jsCoerceDisplay v := by
  cases v with
  | vstr s => show String.mk (escChain1 s.data) = s; rw [escChain1_id]
  | vnull => rfl
  | vundef => rfl
  | vnum n =>
    show String.mk (escChain1 (toJSString (vnum n)).data) = toJSString (vnum n)
    rw [escChain1_id]
  | vdec m e =>
    show String.mk (escChain1 (toJSString (vdec m e)).data) = toJSString (vdec m e)
    rw [escChain1_id]
  | vbool b =>
    show String.mk (escChain1 (toJSString (vbool b)).data) = toJSString (vbool b)
    rw [escChain1_id]
  | varr xs =>
    show String.mk (escChain1 (toJSString (varr xs)).data) = toJSString (varr xs)
    rw [escChain1_id]
  | vobj fs =>
    show String.mk (escChain1 (toJSString (vobj fs)).data) = toJSString (vobj fs)
    rw [escChain1_id]

/-- On values whose display string is special-free, the second draft also
returns the display string unchanged. -/
theorem escapeHtml_v2_noSpecial (v : JSVal)
    (h : noSpecial (jsCoerceDisplay v).data = true) :
    escapeHtml_v2 v = jsCoerceDisplay v := by
  cases v with
  | vstr s =>
    show String.mk (escChain2 s.data) = s
    rw [escChain2_id_of_noSpecial s.data h]
  | vnull => rfl
  | vundef => rfl
  | vnum n =>
    show String.mk (escChain2 (toJSString (vnum n)).data) = toJSString (vnum n)
    have h2 : noSpecial (toJSString (vnum n)).data = true := h
    rw [escChain2_id_of_noSpecial _ h2]
  | vdec m e =>
    show String.mk (escChain2 (toJSString (vdec m e)).data) = toJSString (vdec m e)
    have h2 : noSpecial (toJSString (vdec m e)).data = true := h
    rw [escChain2_id_of_noSpecial _ h2]
  | vbool b =>
    show String.mk (escChain2 (toJSString (vbool b)).data) = toJSString (vbool b)
    have h2 : noSpecial (toJSString (vbool b)).data = true := h
    rw [escChain2_id_of_noSpecial _ h2]
  | varr xs =>
    show String.mk (escChain2 (toJSString (varr xs)).data) = toJSString (varr xs)
    have h2 : noSpecial (toJSString (varr xs)).data = true := h
    rw [escChain2_id_of_noSpecial _ h2]
  | vobj fs =>
    show String.mk (escChain2 (toJSString (vobj fs)).data) = toJSString (vobj fs)
    have h2 : noSpecial (toJSString (vobj fs)).data = true := h
    rw [escChain2_id_of_noSpecial _ h2]

/-- C9 (amended): the first draft's `escapeHtml` merely coerces its
argument to a display string (its stored replacement strings are the
replaced characters themselves, so its chain is the identity), and the two
drafts agree exactly on `null`, `undefined` and every value whose display
string contains none of the five HTML-special characters. -/
theorem C9_amended_drafts_differ (v : JSVal) :
    escapeHtml_v1 v = jsCoerceDisplay v ∧
    (noSpecial (jsCoerceDisplay v).data = true → escapeHtml_v2 v = escapeHtml_v1 v) := by
  refine ⟨escapeHtml_v1_coerce v, fun h => ?_⟩
  rw [escapeHtml_v1_coerce v, escapeHtml_v2_noSpecial v h]

/-- Witness for the amended C9 at a special-free string. -/
theorem C9_amended_drafts_differ_witness :
    escapeHtml_v1 (vstr "plain text") = jsCoerceDisplay (vstr "plain text") ∧
    escapeHtml_v2 (vstr "plain text") = escapeHtml_v1 (vstr "plain text") :=
  ⟨(C9_amended_drafts_differ (vstr "plain text")).1,
   (C9_amended_drafts_differ (vstr "plain text")).2 (by decide)⟩

/-- C8 (amended): no sanitization pass exists around the markdown step:
with data present and a non-empty `deep_reaserach` field, the displayed
research HTML is exactly the renderer's output with nothing stripped, and
for an input the renderer treats as a raw HTML block (such as one starting
with a tag) the displayed HTML is the input itself, script tags included. -/
theorem C8_amended_no_sanitization (s : DashState)
    (fields : List (String × JSVal)) (txt : String)
    (hrec : s.currentNocoRecord = some (vobj fields))
    (hdata : hasData s = true)
    (hf : lookupField fields "deep_reaserach" = some (vstr txt))
    (ht : txt ≠ "") :
    fullDeepResearchHtml s = markedParse txt ∧
    (htmlLead txt = true → fullDeepResearchHtml s = txt) := by
  have h1 : recField s "deep_reaserach" = vstr txt := by
    simp [recField, hrec, getField, hf]
  have h2 : fullDeepResearchHtml s = markedParse txt := by
    simp [fullDeepResearchHtml, hdata, h1, truthy, ht, toJSString]
  refine ⟨h2, fun hl => ?_⟩
  rw [h2]
  simp [markedParse, hl]

/-- Concrete state whose record carries a script tag in the research
field. -/
def c8rec : JSVal :=
  vobj [("deep_reaserach", vstr "<script>alert(1)</script>")]

def c8state : DashState := { s0 with currentNocoRecord := some c8rec }

/-- C8 counterexample: for the research field `<script>alert(1)</script>`
the HTML produced for display contains a `<script>` tag, contradicting the
claim that script tags are stripped before display. -/
theorem C8_counterexample :
    containsSub "<script>".data (fullDeepResearchHtml c8state).data = true ∧
    fullDeepResearchHtml c8state = "<script>alert(1)</script>" := by
  constructor
  · decide
  · rfl

/-- Witness for the amended C8 at the same concrete state. -/
theorem C8_amended_no_sanitization_witness :
    fullDeepResearchHtml c8state = markedParse "<script>alert(1)</script>" ∧
    fullDeepResearchHtml c8state = "<script>alert(1)</script>" :=
  ⟨(C8_amended_no_sanitization c8state
      [("deep_reaserach", vstr "<script>alert(1)</script>")]
      "<script>alert(1)</script>" rfl (by rfl) (by rfl) (by decide)).1,
   (C8_amended_no_sanitization c8state
      [("deep_reaserach", vstr "<script>alert(1)</script>")]
      "<script>alert(1)</script>" rfl (by rfl) (by rfl) (by decide)).2 rfl⟩

/-- A concrete loading state with one fetch for identifier `42` in
flight. -/
def cfgW : WpConfig where
  ajax_url := "https://wp.example/wp-admin/admin-ajax.php"
  nonce := "nonce1"
  useAjaxProxy := true
  bookingLink := none

def c3state : DashState :=
  { s0 with wpConfig := some cfgW, configFetched := true, configCalls := 1,
            visitorIdFromUrl := some "42", visitorIdInput := "42",
            lastFetchedId := some "42", isLoading := true,
            showNoDataMessage := false,
            currentStatusMessage := fetchingMsg "42",
            inFlight := ["42"], networkCalls := 1 }

/-- C3 counterexample: when the backend reports success with an empty
record, the resulting state is not distinct from the error state — the
very same `error` state variable used for failures is set (to the
`No data found` message), so the claimed error-free `no_data_for_id`
state does not exist in the code. -/
theorem C3_counterexample :
    (resolveOkApply "42" (vobj []) c3state).error = some (noDataMsg "42") ∧
    (resolveOkApply "42" (vobj []) c3state).error ≠ none := by
  refine ⟨rfl, ?_⟩
  intro h
  cases h

/-- C3 (amended): a successful response whose payload fails the non-empty
object check yields the no-data outcome by storing the `No data found`
message in the same `error` field a Failure uses, clearing the record and
loading flag; the outcome is distinguished from the generic transport
failure only by the message text. -/
theorem C3_amended_no_data_outcome (id : String) (v : JSVal) (s : DashState)
    (hin : s.inFlight = [id]) (hshape : loadedShape v = false) :
    (resolveOkApply id v s).error = some (noDataMsg id) ∧
    (resolveOkApply id v s).currentNocoRecord = none ∧
    (resolveOkApply id v s).showNoDataMessage = true ∧
    (resolveOkApply id v s).isLoading = false ∧
    noDataMsg id ≠ genericFetchErrMsg ∧ noDataMsg id ≠ "" := by
  refine ⟨?_, ?_, ?_, ?_, noDataMsg_ne_generic id, noDataMsg_ne_empty id⟩ <;>
    simp [resolveOkApply, hin, hshape]

/-- Witness for the amended C3 at the concrete loading state. -/
theorem C3_amended_no_data_outcome_witness :
    (resolveOkApply "42" (vobj []) c3state).error = some (noDataMsg "42") ∧
    (resolveOkApply "42" (vobj []) c3state).currentNocoRecord = none ∧
    (resolveOkApply "42" (vobj []) c3state).showNoDataMessage = true ∧
    (resolveOkApply "42" (vobj []) c3state).isLoading = false ∧
    noDataMsg "42" ≠ genericFetchErrMsg ∧ noDataMsg "42" ≠ "" :=
  C3_amended_no_data_outcome "42" (vobj []) c3state (by rfl) (by rfl)

/-- C5: with data present, a `kpi_data` field whose text is valid JSON for
an array of exactly three KPI objects renders exactly three KPI cards
whose label, value and target texts are the (escaped) fields of the three
parsed objects, in order; a `kpi_data` field that is the empty string or
fails to parse as JSON renders exactly the fixed default four-item KPI
set. -/
theorem C5_kpi_round_trip :
    (∀ (s : DashState) (fields : List (String × JSVal)) (str : String)
        (o1 o2 o3 : JSVal),
      s.currentNocoRecord = some (vobj fields) → hasData s = true →
      lookupField fields "kpi_data" = some (vstr str) → str ≠ "" →
      jsonParse str = some (varr [o1, o2, o3]) →
      kpisToShow s = [o1, o2, o3] ∧
      renderKpiCards s = [kpiCardOf o1, kpiCardOf o2, kpiCardOf o3] ∧
      (renderKpiCards s).length = 3) ∧
    (∀ (s : DashState) (fields : List (String × JSVal)),
      s.currentNocoRecord = some (vobj fields) → hasData s = true →
      (lookupField fields "kpi_data" = some (vstr "") ∨
        (∃ t, lookupField fields "kpi_data" = some (vstr t) ∧ jsonParse t = none)) →
      kpisToShow s = defaultKpis ∧
      renderKpiCards s = defaultKpis.map kpiCardOf ∧
      (renderKpiCards s).length = 4) := by
  constructor
  · intro s fields str o1 o2 o3 hrec hdata hf hs hp
    have h1 : recField s "kpi_data" = vstr str := by
      simp [recField, hrec, getField, hf]
    have h2 : kpisToShow s = [o1, o2, o3] := by
      simp [kpisToShow, hdata, h1, truthy, hs, toJSString, hp]
    exact ⟨h2, by simp [renderKpiCards, h2], by simp [renderKpiCards, h2]⟩
  · intro s fields hrec hdata hbad
    have h2 : kpisToShow s = defaultKpis := by
      rcases hbad with hempty | ⟨t, hf, hp⟩
      · have h1 : recField s "kpi_data" = vstr "" := by
          simp [recField, hrec, getField, hempty]
        simp [kpisToShow, h1, truthy]
      · have h1 : recField s "kpi_data" = vstr t := by
          simp [recField, hrec, getField, hf]
        by_cases ht : t = ""
        · simp [kpisToShow, h1, truthy, ht]
        · simp [kpisToShow, hdata, h1, truthy, ht, toJSString, hp]
    refine ⟨h2, by simp [renderKpiCards, h2], ?_⟩
    simp [renderKpiCards, h2, defaultKpis]

/-- A three-object KPI JSON text, assembled from quote and brace pieces. -/
def kpiJson3 : String :=
  "[" ++ lbs ++ qs ++ "label" ++ qs ++ ":" ++ qs ++ "Leads" ++ qs ++ ","
      ++ qs ++ "value" ++ qs ++ ":" ++ qs ++ "120" ++ qs ++ ","
      ++ qs ++ "target" ++ qs ++ ":" ++ qs ++ "150" ++ qs ++ rbs ++ ","
      ++ lbs ++ qs ++ "label" ++ qs ++ ":" ++ qs ++ "Cost" ++ qs ++ ","
      ++ qs ++ "value" ++ qs ++ ":" ++ qs ++ "80" ++ qs ++ ","
      ++ qs ++ "target" ++ qs ++ ":" ++ qs ++ "60" ++ qs ++ rbs ++ ","
      ++ lbs ++ qs ++ "label" ++ qs ++ ":" ++ qs ++ "NPS" ++ qs ++ ","
      ++ qs ++ "value" ++ qs ++ ":" ++ qs ++ "40" ++ qs ++ ","
      ++ qs ++ "target" ++ qs ++ ":" ++ qs ++ "55" ++ qs ++ rbs ++ "]"

def kpiObjA : JSVal :=
  vobj [("label", vstr "Leads"), ("value", vstr "120"), ("target", vstr "150")]

def kpiObjB : JSVal :=
  vobj [("label", vstr "Cost"), ("value", vstr "80"), ("target", vstr "60")]

def kpiObjC : JSVal :=
  vobj [("label", vstr "NPS"), ("value", vstr "40"), ("target", vstr "55")]

def c5recA : JSVal := vobj [("kpi_data", vstr kpiJson3)]

def c5stateA : DashState := { s0 with currentNocoRecord := some c5recA }

def c5recB : JSVal := vobj [("kpi_data", vstr "not json")]

def c5stateB : DashState := { s0 with currentNocoRecord := some c5recB }

set_option maxRecDepth 100000 in
/-- Witness for C5: both halves at concrete records (a valid three-object
JSON text and an unparsable text). -/
theorem C5_kpi_round_trip_witness :
    (renderKpiCards c5stateA
        = [kpiCardOf kpiObjA, kpiCardOf kpiObjB, kpiCardOf kpiObjC] ∧
      (renderKpiCards c5stateA).length = 3) ∧
    (renderKpiCards c5stateB = defaultKpis.map kpiCardOf ∧
      (renderKpiCards c5stateB).length = 4) :=
  ⟨⟨(C5_kpi_round_trip.1 c5stateA [("kpi_data", vstr kpiJson3)] kpiJson3
        kpiObjA kpiObjB kpiObjC rfl (by rfl) (by rfl) (by decide) (by rfl)).2.1,
    (C5_kpi_round_trip.1 c5stateA [("kpi_data", vstr kpiJson3)] kpiJson3
        kpiObjA kpiObjB kpiObjC rfl (by rfl) (by rfl) (by decide) (by rfl)).2.2⟩,
   ⟨(C5_kpi_round_trip.2 c5stateB [("kpi_data", vstr "not json")] rfl (by rfl)
        (Or.inr ⟨"not json", rfl, by rfl⟩)).2.1,
    (C5_kpi_round_trip.2 c5stateB [("kpi_data", vstr "not json")] rfl (by rfl)
        (Or.inr ⟨"not json", rfl, by rfl⟩)).2.2⟩⟩

/-- A loaded record for identifier `42`. -/
def recW : JSVal :=
  vobj [("first_name", vstr "Ada"), ("organization/name", vstr "Acme")]

/-- Events reaching the `data_loaded` state for identifier `42`: config
load, URL navigation, trigger effect, successful resolution. -/
def c1setup : List Ev :=
  [Ev.configRun, Ev.configOk cfgW, Ev.urlSet (some "42"), Ev.dataEffect,
   Ev.resolveOk "42" recW]

/-- Two same-identifier submissions from the `data_loaded` state, with the
resolutions and effect re-run that follow them. -/
def c1resubmits : List Ev :=
  [Ev.click, Ev.resolveOk "42" recW, Ev.click, Ev.dataEffect,
   Ev.resolveOk "42" recW]

/-- The `data_loaded` state for identifier `42` (one network call made). -/
def c1base : DashState := runEvents (some "https://wp.example") c1setup s0

/-- C1 counterexample: in the `data_loaded` state for identifier `42` with
no error and one network call made, submitting the same identifier twice
drives the network-call counter to `3`: each submission re-initiates a
fetch (the first directly, the second through the effect re-run), so the
pair of triggers costs two further calls instead of the claimed total of
one, and re-submission is not a no-op. -/
theorem C1_counterexample :
    hasData c1base = true ∧ c1base.error = none ∧
    c1base.lastFetchedId = some "42" ∧ c1base.visitorIdInput = "42" ∧
    c1base.networkCalls = 1 ∧
    (runEvents (some "https://wp.example") c1resubmits c1base).networkCalls = 3 ∧
    ¬(runEvents (some "https://wp.example") c1resubmits c1base).networkCalls
        = c1base.networkCalls := by
  refine ⟨rfl, rfl, rfl, rfl, rfl, rfl, ?_⟩
  intro h
  simp only [show (runEvents (some "https://wp.example") c1resubmits
      c1base).networkCalls = 3 from rfl,
    show c1base.networkCalls = 1 from rfl] at h
  exact absurd h (by decide)

/-- C1 (amended): re-submitting the same identifier while in `data_loaded`
with no error is not a no-op: the click takes the direct re-fetch branch
of `handleFetchButtonClick`, so each such trigger issues exactly one new
network call, puts the page back into loading, and clears the
`lastFetchedId` marker. -/
theorem C1_amended_resubmit_refetches (apiUrl : Option String) (cfg : WpConfig)
    (id : String) (v : JSVal) (s : DashState)
    (hcfg : s.wpConfig = some cfg) (hproxy : cfg.useAjaxProxy = true)
    (hurl : cfg.ajax_url ≠ "") (hnonce : cfg.nonce ≠ "")
    (hinput : s.visitorIdInput = id) (htrim : jsTrim id = id) (hid : id ≠ "")
    (hlast : s.lastFetchedId = some id) (herr : s.error = none)
    (hrec : s.currentNocoRecord = some v) (hv : truthy v = true)
    (hload : s.isLoading = false) :
    (applyEv apiUrl Ev.click s).networkCalls = s.networkCalls + 1 ∧
    (applyEv apiUrl Ev.click s).isLoading = true ∧
    (applyEv apiUrl Ev.click s).inFlight = s.inFlight ++ [id] := by
  have hclick : applyEv apiUrl Ev.click s
      = startFetch id { s with lastFetchedId := none } := by
    simp [applyEv, clickOp, hinput, htrim, hid, hlast, herr, hrec, hv, hload,
      errTruthy, optTruthy, recTruthy]
  rw [hclick]
  simp [startFetch, hid, hcfg, hproxy, hurl, hnonce]

/-- Witness for the amended C1 at the concrete `data_loaded` state. -/
theorem C1_amended_resubmit_refetches_witness :
    (applyEv (some "https://wp.example") Ev.click c1base).networkCalls
        = c1base.networkCalls + 1 ∧
    (applyEv (some "https://wp.example") Ev.click c1base).isLoading = true ∧
    (applyEv (some "https://wp.example") Ev.click c1base).inFlight
        = c1base.inFlight ++ ["42"] :=
  C1_amended_resubmit_refetches (some "https://wp.example") cfgW "42" recW
    c1base rfl rfl (by decide) (by decide) rfl (by rfl) (by decide) rfl rfl rfl
    (by rfl) rfl

/-- The idle state right after a successful configuration load. -/
def readyState (cfg : WpConfig) : DashState :=
  { s0 with wpConfig := some cfg, configFetched := true, configCalls := 1 }

/-- Record fetched for identifier `a`. -/
def recA : JSVal := vobj [("idtag", vstr "a")]

/-- Record fetched for identifier `b`. -/
def recB : JSVal := vobj [("idtag", vstr "b")]

/-- The schedule of C2's counterexample: trigger for `a`, navigation to
`b` while the first fetch is still in flight (the effect run during
loading only syncs the input), then the late resolution of `a`. -/
def c2staleEvents : List Ev :=
  [Ev.urlSet (some "a"), Ev.dataEffect, Ev.urlSet (some "b"), Ev.dataEffect,
   Ev.resolveOk "a" recA]

/-- C2 counterexample: there is no discard of stale resolutions — after
the user has navigated from `a` to `b` while the fetch for `a` is in
flight, the late resolution of `a` is applied and `a`'s record becomes the
displayed record even though the current identifier is `b`.  The claimed
never-overwrite guarantee fails at this point of the schedule. -/
theorem C2_counterexample :
    (runEvents (some "https://wp.example") c2staleEvents
        (readyState cfgW)).visitorIdFromUrl = some "b" ∧
    (runEvents (some "https://wp.example") c2staleEvents
        (readyState cfgW)).currentNocoRecord = some recA ∧
    hasData (runEvents (some "https://wp.example") c2staleEvents
        (readyState cfgW)) = true := by
  exact ⟨rfl, rfl, rfl⟩

/-- C2 (amended): fetches are serialized — a trigger for `B` issued while
the fetch for `A` is in flight is deferred by the loading guard, so `B`'s
fetch is only issued after `A` resolves and `B` can never resolve first;
`A`'s late resolution is applied to state even though the identifier is
already `B` (a transient stale display), but the effect re-run that
follows supersedes it, and once both fetches have resolved and the effects
have run, the displayed record is `B`'s, with exactly two network calls
made and nothing left in flight. -/
theorem C2_amended_final_record_is_B (apiUrl : Option String) (cfg : WpConfig)
    (A B : String) (va vb : JSVal)
    (hproxy : cfg.useAjaxProxy = true) (hu : cfg.ajax_url ≠ "")
    (hn : cfg.nonce ≠ "") (hA : A ≠ "") (hB : B ≠ "") (hBA : B ≠ A)
    (hva : loadedShape va = true) (hvb : loadedShape vb = true) :
    (runEvents apiUrl
      [Ev.urlSet (some A), Ev.dataEffect, Ev.urlSet (some B), Ev.dataEffect,
       Ev.resolveOk A va, Ev.dataEffect, Ev.resolveOk B vb, Ev.dataEffect]
      (readyState cfg)).currentNocoRecord = some vb ∧
    (runEvents apiUrl
      [Ev.urlSet (some A), Ev.dataEffect, Ev.urlSet (some B), Ev.dataEffect,
       Ev.resolveOk A va, Ev.dataEffect, Ev.resolveOk B vb, Ev.dataEffect]
      (readyState cfg)).isLoading = false ∧
    (runEvents apiUrl
      [Ev.urlSet (some A), Ev.dataEffect, Ev.urlSet (some B), Ev.dataEffect,
       Ev.resolveOk A va, Ev.dataEffect, Ev.resolveOk B vb, Ev.dataEffect]
      (readyState cfg)).inFlight = [] ∧
    (runEvents apiUrl
      [Ev.urlSet (some A), Ev.dataEffect, Ev.urlSet (some B), Ev.dataEffect,
       Ev.resolveOk A va, Ev.dataEffect, Ev.resolveOk B vb, Ev.dataEffect]
      (readyState cfg)).networkCalls = 2 ∧
    (runEvents apiUrl
      [Ev.urlSet (some A), Ev.dataEffect, Ev.urlSet (some B), Ev.dataEffect,
       Ev.resolveOk A va, Ev.dataEffect, Ev.resolveOk B vb, Ev.dataEffect]
      (readyState cfg)).visitorIdFromUrl = some B := by
  refine ⟨?_, ?_, ?_, ?_, ?_⟩ <;>
    simp [runEvents, applyEv, dataEffectOp, startFetch, resolveOkApply,
      resetToBegin, resetNoId, failNow, readyState, s0, hA, hB, hBA, hproxy,
      hu, hn, hva, hvb]

/-- Witness for the amended C2 at concrete identifiers and records. -/
theorem C2_amended_final_record_is_B_witness :
    (runEvents (some "https://wp.example")
      [Ev.urlSet (some "a"), Ev.dataEffect, Ev.urlSet (some "b"), Ev.dataEffect,
       Ev.resolveOk "a" recA, Ev.dataEffect, Ev.resolveOk "b" recB, Ev.dataEffect]
      (readyState cfgW)).currentNocoRecord = some recB ∧
    (runEvents (some "https://wp.example")
      [Ev.urlSet (some "a"), Ev.dataEffect, Ev.urlSet (some "b"), Ev.dataEffect,
       Ev.resolveOk "a" recA, Ev.dataEffect, Ev.resolveOk "b" recB, Ev.dataEffect]
      (readyState cfgW)).isLoading = false ∧
    (runEvents (some "https://wp.example")
      [Ev.urlSet (some "a"), Ev.dataEffect, Ev.urlSet (some "b"), Ev.dataEffect,
       Ev.resolveOk "a" recA, Ev.dataEffect, Ev.resolveOk "b" recB, Ev.dataEffect]
      (readyState cfgW)).inFlight = [] ∧
    (runEvents (some "https://wp.example")
      [Ev.urlSet (some "a"), Ev.dataEffect, Ev.urlSet (some "b"), Ev.dataEffect,
       Ev.resolveOk "a" recA, Ev.dataEffect, Ev.resolveOk "b" recB, Ev.dataEffect]
      (readyState cfgW)).networkCalls = 2 ∧
    (runEvents (some "https://wp.example")
      [Ev.urlSet (some "a"), Ev.dataEffect, Ev.urlSet (some "b"), Ev.dataEffect,
       Ev.resolveOk "a" recA, Ev.dataEffect, Ev.resolveOk "b" recB, Ev.dataEffect]
      (readyState cfgW)).visitorIdFromUrl = some "b" :=
  C2_amended_final_record_is_B (some "https://wp.example") cfgW "a" "b"
    recA recB rfl (by decide) (by decide) (by decide) (by decide) (by decide)
    (by rfl) (by rfl)

/-- Every message the page ever stores in `error` is non-empty. -/
def errOk (s : DashState) : Prop := s.error ≠ some ""

theorem errOk_startFetch (id : String) (s : DashState) : errOk (startFetch id s) := by
  unfold startFetch resetNoId failNow errOk
  split
  · simp
  · split
    · simp
    · split
      · simp
      · split
        · simp
        · simp

theorem errOk_applyEv (apiUrl : Option String) (e : Ev) (s : DashState)
    (h : errOk s) : errOk (applyEv apiUrl e s) := by
  cases e with
  | configRun =>
    show errOk (configRunOp apiUrl s)
    unfold configRunOp
    split
    · exact h
    · split
      · simp [errOk]
      · exact h
  | configOk cfg =>
    show errOk (configOkOp cfg s)
    unfold configOkOp
    split
    · exact h
    · exact h
  | configFail m =>
    show errOk (configFailOp m s)
    unfold configFailOp
    split
    · unfold errOk
      simp only [ne_eq, Option.some.injEq]
      exact fun hx => append_ne_empty_left _ m (by decide) hx
    · exact h
  | urlSet u => exact h
  | dataEffect =>
    show errOk (dataEffectOp s)
    unfold dataEffectOp resetToBegin
    split
    · exact h
    · split
      · split
        · simp [errOk]
        · split
          · exact errOk_startFetch _ _
          · exact h
      · simp [errOk]
  | inputSet t => exact h
  | click =>
    show errOk (clickOp s)
    unfold clickOp
    (repeat' split) <;> first
      | exact h
      | exact errOk_startFetch _ _
      | simp [errOk]
  | resolveOk id v =>
    show errOk (resolveOkApply id v s)
    unfold resolveOkApply
    split
    · split
      · exact h
      · unfold errOk
        simp only [ne_eq, Option.some.injEq]
        exact fun hx => noDataMsg_ne_empty id hx
    · exact h
  | resolveFail id m =>
    show errOk (resolveFailApply id m s)
    unfold resolveFailApply
    split
    · unfold errOk
      simp only [ne_eq, Option.some.injEq]
      exact fun hx => jsOrStr_ne_empty m unexpectedErrMsg (by decide) hx
    · exact h

/-- Along every reachable state the stored error message is non-empty. -/
theorem errOk_reachable (apiUrl : Option String) (s : DashState)
    (h : Reachable apiUrl s) : errOk s := by
  induction h with
  | refl => simp [errOk, s0]
  | tail _ hstep ih =>
    obtain ⟨e, rfl⟩ := hstep
    exact errOk_applyEv apiUrl e _ ih

/-- C10: in every reachable state, `displayDashboardContent` being set
implies the current record is a truthy non-empty object, the page is not
loading, and the error is absent. -/
theorem C10_display_gate (apiUrl : Option String) (s : DashState)
    (hreach : Reachable apiUrl s)
    (hdisp : displayDashboardContent s = true) :
    (∃ v, s.currentNocoRecord = some v ∧ truthy v = true ∧
      typeofObj v = true ∧ 0 < jsKeysLen v) ∧
    s.isLoading = false ∧ s.error = none := by
  have herr := errOk_reachable apiUrl s hreach
  unfold displayDashboardContent hasData at hdisp
  cases hc : s.currentNocoRecord with
  | none => rw [hc] at hdisp; cases hdisp
  | some v =>
    rw [hc] at hdisp
    simp only [Bool.and_eq_true, Bool.not_eq_true', decide_eq_true_eq] at hdisp
    obtain ⟨⟨⟨⟨h1, h2⟩, h3⟩, h4⟩, h5⟩ := hdisp
    refine ⟨⟨v, rfl, h1, h2, h3⟩, h4, ?_⟩
    cases he : s.error with
    | none => rfl
    | some m =>
      rw [he] at h5
      unfold errTruthy optTruthy at h5
      simp only [ne_eq, decide_eq_false_iff_not, not_not] at h5
      subst h5
      exact absurd he herr

/-- Events reaching a state that displays the dashboard content. -/
def c10events : List Ev :=
  [Ev.configRun, Ev.configOk cfgW, Ev.urlSet (some "42"), Ev.dataEffect,
   Ev.resolveOk "42" recW]

def c10state : DashState := runEvents (some "https://wp.example") c10events s0

/-- Running events preserves reachability. -/
theorem reachable_runEvents (apiUrl : Option String) (evs : List Ev) :
    ∀ s : DashState, Reachable apiUrl s → Reachable apiUrl (runEvents apiUrl evs s) := by
  induction evs with
  | nil => intro s h; exact h
  | cons e rest ih =>
    intro s h
    exact ih (applyEv apiUrl e s) (h.tail ⟨e, rfl⟩)

/-- Witness for C10 at a concrete reachable `data_loaded` state. -/
theorem C10_display_gate_witness :
    (∃ v, c10state.currentNocoRecord = some v ∧ truthy v = true ∧
      typeofObj v = true ∧ 0 < jsKeysLen v) ∧
    c10state.isLoading = false ∧ c10state.error = none :=
  C10_display_gate (some "https://wp.example") c10state
    (reachable_runEvents (some "https://wp.example") c10events s0
      Relation.ReflTransGen.refl)
    (by rfl)
